import Mathlib

/-!
Verification of the webhook-processor ingress-to-storage pipeline.

This file shallowly embeds the Go sources of the repository:
the MailerCloud validation / routing logic (api/router/router.go),
the production webhook handler, rate limiter, and webhook-id generation
(package handlers), the Mongo storage adapter (package storage) and the
queue worker (package worker).  Machine times are modelled as natural
numbers of seconds since the Unix epoch; Go float64 JSON numbers are
modelled as rationals (all inputs used here are exactly representable).
-/

namespace WebhookProc

/-- JSON values as decoded by encoding/json: objects become
`map[string]interface{}` (modelled as association lists with the keys
already deduplicated, as Go map decoding guarantees), numbers become
float64 (modelled as rationals). -/
inductive Json where
  | null
  | bool (b : Bool)
  | num (q : ℚ)
  | str (s : String)
  | arr (elems : List Json)
  | obj (fields : List (String × Json))

/-- Lookup of a key in a decoded JSON object (`data[k]` on the Go map,
`nil`/absent distinguished by `Option`). -/
def lookupField (data : List (String × Json)) (k : String) : Option Json :=
  (data.find? (fun p => p.1 = k)).map Prod.snd

/-- The Go type assertion `data[k].(string)`: some value only when the key
is present and holds a JSON string. -/
def getString (data : List (String × Json)) (k : String) : Option String :=
  match lookupField data k with
  | some (Json.str s) => some s
  | _ => none

/-- The Go type assertion `data[k].(float64)`: some value only when the key
is present and holds a JSON number. -/
def getNum (data : List (String × Json)) (k : String) : Option ℚ :=
  match lookupField data k with
  | some (Json.num q) => some q
  | _ => none

/-! ## Rate limiter (api/handlers, type RateLimiter / AllowRequest) -/

/-- Per-client counters, mirroring `clientLimit` of the handlers package:
`dailyCount`, `lastReset` (seconds since epoch, UTC), `webhookCount`,
`isPremium`. -/
structure ClientLimit where
  dailyCount : ℕ
  lastReset : ℕ
  webhookCount : ℕ
  isPremium : Bool
deriving DecidableEq, Repr

/-- The limiter state, mirroring `RateLimiter`: the per-client map plus the
plan limits installed by `NewRateLimiter`. -/
structure RateLimiter where
  limits : List (String × ClientLimit)
  freePlanDailyLimit : ℕ
  freePlanWebhookLimit : ℕ
  premiumPlanWebhookLimit : ℕ
deriving DecidableEq, Repr

/-- `NewRateLimiter()`: empty map, free plan 10000 events/day and 20
webhooks, premium plan 50 webhooks. -/
def newRateLimiter : RateLimiter :=
  { limits := [], freePlanDailyLimit := 10000, freePlanWebhookLimit := 20,
    premiumPlanWebhookLimit := 50 }

/-- Association-list lookup on the limiter map. -/
def lookupLimit (rl : RateLimiter) (clientID : String) : Option ClientLimit :=
  (rl.limits.find? (fun p => p.1 = clientID)).map Prod.snd

/-- Store (insert or replace) a client's entry in the limiter map. -/
def setLimit : List (String × ClientLimit) → String → ClientLimit →
    List (String × ClientLimit)
  | [], c, l => [(c, l)]
  | (c1, l1) :: rest, c, l =>
      if c1 = c then (c, l) :: rest else (c1, l1) :: setLimit rest c l

/-- `AllowRequest(clientID)` evaluated at time `now` (seconds, UTC).
Mirrors the source: a missing entry is created with `lastReset = now`; the
daily count is zeroed and re-anchored when `now - lastReset >= 24h`;
premium entries are capped only by the premium webhook limit; free entries
are rejected at the webhook cap or the daily cap, otherwise the daily
counter is incremented.  The returned limiter holds the mutated entry
(the Go code mutates the map entry in place, so the rolled window is kept
even on rejection). -/
def allowRequest (rl : RateLimiter) (clientID : String) (now : ℕ) :
    Bool × RateLimiter :=
  let limit0 := (lookupLimit rl clientID).getD
    { dailyCount := 0, lastReset := now, webhookCount := 0, isPremium := false }
  let limit1 := if 86400 ≤ now - limit0.lastReset then
      { limit0 with dailyCount := 0, lastReset := now } else limit0
  let reject := { rl with limits := setLimit rl.limits clientID limit1 }
  let accept := { rl with
    limits := setLimit rl.limits clientID { limit1 with dailyCount := limit1.dailyCount + 1 } }
  if limit1.isPremium then
    if rl.premiumPlanWebhookLimit ≤ limit1.webhookCount then (false, reject)
    else (true, accept)
  else if rl.freePlanWebhookLimit ≤ limit1.webhookCount then (false, reject)
  else if rl.freePlanDailyLimit ≤ limit1.dailyCount then (false, reject)
  else (true, accept)

/-- Iterated calls: `allowIter c t n` is the limiter state after `n`
successive `AllowRequest c` calls, all at time `t`, starting fresh. -/
def allowIter (c : String) (t : ℕ) : ℕ → RateLimiter
  | 0 => newRateLimiter
  | n + 1 => (allowRequest (allowIter c t n) c t).2

/-- The daily count the limiter sees for `clientID` at time `now`, after
the window roll (0 for a missing entry, 0 again when the window has
expired). -/
def dailyCountAfterRoll (rl : RateLimiter) (clientID : String) (now : ℕ) : ℕ :=
  match lookupLimit rl clientID with
  | none => 0
  | some e => if 86400 ≤ now - e.lastReset then 0 else e.dailyCount

/-- The entry `AllowRequest` works with after the lazy creation and the
window roll: the stored entry (or a fresh one anchored at `now`), with
the daily count zeroed and the anchor moved to `now` when at least 24h
have elapsed. -/
def rolledLimit (rl : RateLimiter) (clientID : String) (now : ℕ) : ClientLimit :=
  let limit0 := (lookupLimit rl clientID).getD
    { dailyCount := 0, lastReset := now, webhookCount := 0, isPremium := false }
  if 86400 ≤ now - limit0.lastReset then
    { limit0 with dailyCount := 0, lastReset := now } else limit0

/-- A client entry with its daily counter incremented, as stored by an
accepting `AllowRequest` call. -/
def bumpedLimit (e : ClientLimit) : ClientLimit :=
  { e with dailyCount := e.dailyCount + 1 }

/-- UTC midnight of the instant `t` (seconds since the epoch): the spec's
claimed anchor for the first-event window. -/
def utcMidnight (t : ℕ) : ℕ := t - t % 86400

/-- Limiter states reachable by the program: the constructor state followed
by any sequence of `AllowRequest` calls (the only operation the package
ever performs on the limiter). -/
inductive Reachable : RateLimiter → Prop where
  | init : Reachable newRateLimiter
  | step (rl : RateLimiter) (c : String) (t : ℕ) :
      Reachable rl → Reachable (allowRequest rl c t).2

/-! ## WebhookEvent (internal/models/webhook.go) -/

/-- `models.WebhookEvent`.  Go zero values are the empty string, 0, the
empty list and `nil` (`none`); times are seconds since the epoch. -/
structure WebhookEvent where
  webhookID : String := ""
  webhookType : String := ""
  event : String := ""
  campaignName : String := ""
  campaignID : String := ""
  tagName : String := ""
  dateEvent : String := ""
  timestamp : ℤ := 0
  timestampEvent : ℤ := 0
  emails : List String := []
  email : String := ""
  url : String := ""
  listID : Option Json := none
  reason : String := ""
  clientID : String := ""
  receivedAt : ℕ := 0
  updatedAt : ℕ := 0
  retryCount : ℕ := 0
  status : String := ""

/-! ## Webhook id generation (handlers.generateWebhookID) -/

/-- UTF-8 bytes of a character, as Go strings are byte sequences in UTF-8. -/
def charUtf8Bytes (c : Char) : List ℕ :=
  let n := c.toNat
  if n < 128 then [n]
  else if n < 2048 then [192 + n / 64, 128 + n % 64]
  else if n < 65536 then [224 + n / 4096, 128 + (n / 64) % 64, 128 + n % 64]
  else [240 + n / 262144, 128 + (n / 4096) % 64, 128 + (n / 64) % 64, 128 + n % 64]

/-- A hex digit character, lowercase, as produced by fmt's %x verb. -/
def hexDigit (n : ℕ) : Char :=
  if n < 10 then Char.ofNat (48 + n) else Char.ofNat (87 + n)

/-- Two lowercase hex digits for one byte. -/
def byteHex (b : ℕ) : String :=
  String.mk [hexDigit (b / 16 % 16), hexDigit (b % 16)]

/-- Go `fmt.Sprintf("%x", s)` for a string: the bytes of `s` in lowercase
hex, two digits per byte. -/
def goHexString (s : String) : String :=
  String.join ((s.data.flatMap charUtf8Bytes).map byteHex)

/-- Go `fmt.Sprintf("%x", xs)` for a `[]string`: the elements hex-dumped,
space-separated, in square brackets. -/
def goSliceHex (xs : List String) : String :=
  "[" ++ String.intercalate " " (xs.map goHexString) ++ "]"

/-- Floor of a rational, computed on the reduced numerator and (positive)
denominator with euclidean division. -/
def ratFloor (q : ℚ) : ℤ := q.num.ediv q.den

/-- Round-half-to-even of a rational, the rounding performed by Go's
`fmt.Sprintf("%.0f", v)` on a float64.  With `f = ⌊q⌋` and remainder
`r = num - f·den` (so the fractional part is `r/den`), the value rounds
down below one half, up above it, and to the even neighbour at exactly
one half. -/
def roundHalfEven (q : ℚ) : ℤ :=
  let f := ratFloor q
  let r := q.num - f * q.den
  if 2 * r < q.den then f
  else if (q.den : ℤ) < 2 * r then f + 1
  else if f % 2 = 0 then f else f + 1

/-- Go `fmt.Sprintf("%.0f", v)` (for float64 values exactly representable
as the given rational). -/
def goFormatZeroF (q : ℚ) : String := toString (roundHalfEven q)

/-- The identifier fields probed by strategy 1 of `generateWebhookID`,
in source order. -/
def idFields : List String :=
  ["webhook_id", "message_id", "event_id", "delivery_id", "tracking_id"]

/-- Strategy 1: the first of `idFields` that is present as a non-empty
JSON string in the body. -/
def firstIdField (data : List (String × Json)) : Option String :=
  idFields.findSome? fun f =>
    match getString data f with
    | some v => if v = "" then none else some v
    | none => none

/-- The `components` slice built by strategy 2 of `generateWebhookID`:
non-empty `campaign_id`, non-empty `email`, `%.0f` of a numeric `ts`,
non-empty `event`, in that order. -/
def compositeComponents (data : List (String × Json)) : List String :=
  (match getString data "campaign_id" with
    | some v => if v = "" then [] else [v]
    | none => [])
  ++ (match getString data "email" with
    | some v => if v = "" then [] else [v]
    | none => [])
  ++ (match getNum data "ts" with
    | some q => [goFormatZeroF q]
    | none => [])
  ++ (match getString data "event" with
    | some v => if v = "" then [] else [v]
    | none => [])

/-- `handlers.generateWebhookID(data)`: an existing id field verbatim,
else `mc_` ++ the %x dump of the non-empty components
`[campaign_id, email, %.0f(ts), event]`, else `mc_` ++ the current
nanosecond timestamp (passed in as `nowNanos`). -/
def generateWebhookID (data : List (String × Json)) (nowNanos : ℕ) : String :=
  match firstIdField data with
  | some v => v
  | none =>
    let components := compositeComponents data
    if components = [] then "mc_" ++ toString nowNanos
    else "mc_" ++ goSliceHex components

/-- Modelled from the spec's words (§4.3 identity assignment): one
component per non-empty field of the sequence
`[campaign_id, email, floor(ts), event]`, with the vendor timestamp taken
through `floor`. -/
def specComponentsFloor (data : List (String × Json)) : List String :=
  [ (getString data "campaign_id").bind (fun v => if v = "" then none else some v),
    (getString data "email").bind (fun v => if v = "" then none else some v),
    (getNum data "ts").map (fun q => toString (ratFloor q)),
    (getString data "event").bind (fun v => if v = "" then none else some v)
  ].filterMap id

/-- The spec's claimed composite id, floor variant. -/
def specCompositeFloor (data : List (String × Json)) : String :=
  "mc_" ++ goSliceHex (specComponentsFloor data)

/-- The composite components as the code actually rounds them:
`%.0f` rounds the timestamp half-to-even instead of flooring it. -/
def specComponentsRounded (data : List (String × Json)) : List String :=
  [ (getString data "campaign_id").bind (fun v => if v = "" then none else some v),
    (getString data "email").bind (fun v => if v = "" then none else some v),
    (getNum data "ts").map goFormatZeroF,
    (getString data "event").bind (fun v => if v = "" then none else some v)
  ].filterMap id

/-- The composite id with rounding, the amended reading of the spec. -/
def specCompositeRounded (data : List (String × Json)) : String :=
  "mc_" ++ goSliceHex (specComponentsRounded data)

/-! ## Ingress: HTTP model, handler (handlers.HandleWebhook) and router
(router.Setup, POST /webhook closure) -/

/-- An inbound HTTP request: headers (Go's `c.GetHeader` returns "" for a
missing header) and the wire body, `none` when the bytes are not valid
JSON decodable into `map[string]interface{}` (a JSON `null` decodes into
the nil map and is modelled as `some Json.null`). -/
structure HttpRequest where
  headers : List (String × String)
  body : Option Json

/-- `c.GetHeader(name)`: the header value or "". -/
def getHeader (req : HttpRequest) (name : String) : String :=
  ((req.headers.find? (fun p => p.1 = name)).map Prod.snd).getD ""

/-- The observable part of a JSON response written with `c.JSON`. -/
structure HttpResponse where
  status : ℕ
  success : Option Bool := none
  errMsg : Option String := none
  message : Option String := none
  webhookId : Option String := none
  clientId : Option String := none
deriving DecidableEq, Repr

/-- An error response `c.JSON(status, gin.H{"error": msg})`. -/
def respErr (status : ℕ) (msg : String) : HttpResponse :=
  { status := status, errMsg := some msg }

/-- The router's validation-success response (200, success true). -/
def respValidationOk : HttpResponse :=
  { status := 200, success := some true,
    message := some "Webhook validation successful" }

/-- The handler's MailerCloud-test response (200, success true). -/
def respUrlVerified : HttpResponse :=
  { status := 200, success := some true, message := some "Webhook URL verified" }

/-- The handler's acceptance response. -/
def respAccepted (webhookId clientId : String) : HttpResponse :=
  { status := 200, message := some "Event accepted",
    webhookId := some webhookId, clientId := some clientId }

/-- What one POST /webhook request produces: the response, the events
published to the broker (in order), and the limiter state afterwards. -/
structure IngressResult where
  response : HttpResponse
  published : List WebhookEvent
  limiter : RateLimiter

/-- The security configuration the router closure reads:
`cfg.Security.APIKeyHeader` and `cfg.Security.APIKeys`
(clientID → api key). -/
structure RouterConfig where
  apiKeyHeader : String
  apiKeys : List (String × String)

/-- `mapping.WebhookMappingService.GetClientForWebhook`: the
webhook-id → client-id map loaded at startup. -/
def getClientForWebhook (mapper : List (String × String)) (webhookID : String) :
    Option String :=
  (mapper.find? (fun p => p.1 = webhookID)).map Prod.snd

/-- `handlers.extractClientID`: the Webhook-Id header looked up in the
mapping service, falling back to the header value itself, then to
"unknown". -/
def extractClientID (mapper : List (String × String)) (req : HttpRequest) : String :=
  let webhookID := getHeader req "Webhook-Id"
  if webhookID ≠ "" then
    match getClientForWebhook mapper webhookID with
    | some clientID => clientID
    | none => webhookID
  else "unknown"

/-- `c.ShouldBindJSON(&data)` into `map[string]interface{}`: a JSON object
gives its fields, a JSON `null` gives the empty (nil) map, anything else —
including an already-consumed body, `none` — is a bind error. -/
def bindObj : Option Json → Option (List (String × Json))
  | some (Json.obj fields) => some fields
  | some Json.null => some []
  | _ => none

/-- Field extraction of `HandleWebhook`: the alias lists from the source,
applied to the freshly created pending event. -/
def extractFields (event : WebhookEvent) (data : List (String × Json)) :
    WebhookEvent :=
  let event := match getString data "event" with
    | some v => { event with event := v } | none => event
  let event := match getString data "campaign_name" with
    | some v => { event with campaignName := v }
    | none => match getString data "campaign name" with
      | some v => { event with campaignName := v } | none => event
  let event := match getString data "campaign_id" with
    | some v => { event with campaignID := v }
    | none => match getString data "camp_id" with
      | some v => { event with campaignID := v } | none => event
  let event := match getString data "tag_name" with
    | some v => { event with tagName := v }
    | none => match getString data "tag" with
      | some v => { event with tagName := v } | none => event
  let event := match getString data "date_event" with
    | some v => { event with dateEvent := v } | none => event
  let event := match getNum data "ts" with
    | some q => { event with timestamp := q.num.tdiv q.den } | none => event
  let event := match getNum data "ts_event" with
    | some q => { event with timestampEvent := q.num.tdiv q.den } | none => event
  let event := match getString data "email" with
    | some v => { event with email := v } | none => event
  let event := match getString data "URL" with
    | some v => { event with url := v }
    | none => match getString data "url" with
      | some v => { event with url := v }
      | none => match getString data "click_url" with
        | some v => { event with url := v } | none => event
  let event := match getString data "reason" with
    | some v => { event with reason := v } | none => event
  let event := match lookupField data "list_id" with
    | some v => { event with listID := some v } | none => event
  let event := match lookupField data "emails" with
    | some (Json.arr xs) =>
        { event with emails := xs.filterMap (fun j => match j with
            | Json.str s => some s | _ => none) }
    | _ => event
  event

/-- `handlers.MailerCloudWebhookHandler.HandleWebhook` on a POST request.
`bodySeen` is what the handler's own `ShouldBindJSON` can still read from
the request stream; `now` (seconds) and `nowNanos` model the clock.  The
publisher is modelled as always succeeding, collecting the event. -/
def handleWebhook (mapper : List (String × String)) (rl : RateLimiter)
    (req : HttpRequest) (bodySeen : Option Json) (now nowNanos : ℕ) :
    IngressResult :=
  match bindObj bodySeen with
  | none =>
      { response := respErr 400 "Invalid JSON payload", published := [], limiter := rl }
  | some data =>
    if getHeader req "User-Agent" = "MailerCloud" then
      { response := respUrlVerified, published := [], limiter := rl }
    else
      let clientID := extractClientID mapper req
      let allowed := allowRequest rl clientID now
      if allowed.1 = false then
        { response := respErr 429 "Rate limit exceeded", published := [],
          limiter := allowed.2 }
      else
        let event0 : WebhookEvent :=
          { webhookID := generateWebhookID data nowNanos,
            webhookType := "email_event", clientID := clientID,
            receivedAt := now, status := "pending" }
        let event := extractFields event0 data
        { response := respAccepted event.webhookID event.clientID,
          published := [event], limiter := allowed.2 }

/-- Go's `requestBody["test"] != nil`: true only when the key holds a
decoded value that is not JSON null. -/
def isNonNilValue : Option Json → Bool
  | some Json.null => false
  | some _ => true
  | none => false

/-- The router's MailerCloud-validation test (router.go 96-109): the
Webhook-Id header equals the literal "WebhookID", or the User-Agent equals
"MailerCloud", or the body binds to a map that is empty or has exactly one
entry whose "test" key holds a non-nil value. -/
def isMailerCloudValidation (req : HttpRequest) : Bool :=
  (decide (getHeader req "Webhook-Id" = "WebhookID") ||
    decide (getHeader req "User-Agent" = "MailerCloud")) ||
  (match bindObj req.body with
    | some data =>
        decide (data.length = 0) ||
          (decide (data.length = 1) && isNonNilValue (lookupField data "test"))
    | none => false)

/-- The POST /webhook closure of `router.Setup`.  The probe check calls
`ShouldBindJSON` on the request stream, which consumes it; the source's
`c.Request.Body = c.Request.Body` is a self-assignment that does not
restore it, so a handler invoked afterwards reads an exhausted stream
(`none`). -/
def routerPost (cfg : RouterConfig) (mapper : List (String × String))
    (rl : RateLimiter) (req : HttpRequest) (now nowNanos : ℕ) : IngressResult :=
  let webhookId := getHeader req "Webhook-Id"
  let consumedBody : Option Json := none
  if isMailerCloudValidation req then
    { response := respValidationOk, published := [], limiter := rl }
  else if webhookId ≠ "" ∧ webhookId ≠ "WebhookID" then
    handleWebhook mapper rl req consumedBody now nowNanos
  else
    let apiKey := getHeader req cfg.apiKeyHeader
    if apiKey = "" then
      { response := respErr 401 "Missing API key", published := [], limiter := rl }
    else if cfg.apiKeys.any (fun p => p.2 = apiKey) then
      handleWebhook mapper rl req consumedBody now nowNanos
    else
      { response := respErr 401 "Invalid API key", published := [], limiter := rl }

/-! ## Storage adapter (internal/storage, MongoDB.InsertEvent) -/

/-- A value stored in a BSON document: string, int, nat, timestamp,
string array, or raw JSON (the unstructured `list_id`). -/
inductive DocValue where
  | s (v : String)
  | i (v : ℤ)
  | n (v : ℕ)
  | t (v : ℕ)
  | strs (v : List String)
  | j (v : Json)

/-- `MongoDB.InsertEvent`: the document built from an event.  The seven
base fields are always written (with the status defaulted to "pending"
when unset); the optional fields are added only when they have values. -/
def insertEventDoc (event : WebhookEvent) : List (String × DocValue) :=
  let status := if event.status = "" then "pending" else event.status
  [ ("webhook_id", DocValue.s event.webhookID),
    ("webhook_type", DocValue.s event.webhookType),
    ("client_id", DocValue.s event.clientID),
    ("event", DocValue.s event.event),
    ("received_at", DocValue.t event.receivedAt),
    ("status", DocValue.s status),
    ("retry_count", DocValue.n event.retryCount) ]
  ++ (if event.campaignID ≠ "" then [("campaign_id", DocValue.s event.campaignID)] else [])
  ++ (if event.campaignName ≠ "" then [("campaign_name", DocValue.s event.campaignName)] else [])
  ++ (if event.tagName ≠ "" then [("tag_name", DocValue.s event.tagName)] else [])
  ++ (if event.dateEvent ≠ "" then [("date_event", DocValue.s event.dateEvent)] else [])
  ++ (if event.url ≠ "" then [("url", DocValue.s event.url)] else [])
  ++ (if event.email ≠ "" then [("email", DocValue.s event.email)] else [])
  ++ (if event.emails ≠ [] then [("emails", DocValue.strs event.emails)] else [])
  ++ (match event.listID with
      | some v => [("list_id", DocValue.j v)]
      | none => [])
  ++ (if event.reason ≠ "" then [("reason", DocValue.s event.reason)] else [])

/-- The keys present in the stored document. -/
def docKeys (event : WebhookEvent) : List String :=
  (insertEventDoc event).map Prod.fst

/-! ## Worker (internal/worker: Start, processEvent, handleError) -/

/-- `json.Unmarshal(msg.Body, event)` for `models.WebhookEvent`: only the
fields with JSON tags are settable (client_id, received_at, updated_at,
retry_count and status carry the tag "-"); a `null` body leaves the base
event unchanged; arrays and scalars, or a field of the wrong type, are an
unmarshal error (`none`). -/
def unmarshalEvent (j : Json) (base : WebhookEvent) : Option WebhookEvent :=
  match j with
  | Json.null => some base
  | Json.obj fields => unmarshalFields fields base
  | _ => none
where
  setField (ev : WebhookEvent) : String × Json → Option WebhookEvent
    | ("webhook_id", Json.str v) => some { ev with webhookID := v }
    | ("webhook_id", Json.null) => some ev
    | ("webhook_id", _) => none
    | ("webhook_type", Json.str v) => some { ev with webhookType := v }
    | ("webhook_type", Json.null) => some ev
    | ("webhook_type", _) => none
    | ("event", Json.str v) => some { ev with event := v }
    | ("event", Json.null) => some ev
    | ("event", _) => none
    | ("campaign_name", Json.str v) => some { ev with campaignName := v }
    | ("campaign_name", Json.null) => some ev
    | ("campaign_name", _) => none
    | ("campaign_id", Json.str v) => some { ev with campaignID := v }
    | ("campaign_id", Json.null) => some ev
    | ("campaign_id", _) => none
    | ("tag_name", Json.str v) => some { ev with tagName := v }
    | ("tag_name", Json.null) => some ev
    | ("tag_name", _) => none
    | ("date_event", Json.str v) => some { ev with dateEvent := v }
    | ("date_event", Json.null) => some ev
    | ("date_event", _) => none
    | ("ts", Json.num q) =>
        if q.den = 1 then some { ev with timestamp := q.num } else none
    | ("ts", Json.null) => some ev
    | ("ts", _) => none
    | ("ts_event", Json.num q) =>
        if q.den = 1 then some { ev with timestampEvent := q.num } else none
    | ("ts_event", Json.null) => some ev
    | ("ts_event", _) => none
    | ("emails", Json.arr xs) =>
        (xs.mapM (fun x => match x with | Json.str v => some v | _ => none)).map
          (fun vs => { ev with emails := vs })
    | ("emails", Json.null) => some ev
    | ("emails", _) => none
    | ("email", Json.str v) => some { ev with email := v }
    | ("email", Json.null) => some ev
    | ("email", _) => none
    | ("URL", Json.str v) => some { ev with url := v }
    | ("URL", Json.null) => some ev
    | ("URL", _) => none
    | ("list_id", Json.null) => some { ev with listID := none }
    | ("list_id", v) => some { ev with listID := some v }
    | ("reason", Json.str v) => some { ev with reason := v }
    | ("reason", Json.null) => some ev
    | ("reason", _) => none
    | (_, _) => some ev
  unmarshalFields (fields : List (String × Json)) (ev : WebhookEvent) :
      Option WebhookEvent :=
    match fields with
    | [] => some ev
    | f :: rest =>
      match setField ev f with
      | some ev2 => unmarshalFields rest ev2
      | none => none

/-- A broker delivery: the AMQP headers (string-valued entries are the
ones the worker reads) and the message body, `none` when the bytes are
not valid JSON. -/
structure Delivery where
  headers : List (String × Json)
  body : Option Json

/-- How the worker settles a delivery. -/
inductive AckAction where
  | ack
  | nackDrop
  | nackRequeue
deriving DecidableEq, Repr

/-- A write the worker performs against storage. -/
inductive StorageWrite where
  | insertDoc (doc : List (String × DocValue))
  | updateStatus (webhookId : String) (status : String) (retryCount : ℕ)

/-- One delivery processed by the worker loop. -/
structure CycleResult where
  ackAction : AckAction
  writes : List StorageWrite

/-- The header-metadata override of `Worker.Start`: non-empty string
headers `webhook_id`, `webhook_type`, `client_id` replace the decoded
fields. -/
def applyHeaderMeta (ev : WebhookEvent) (headers : List (String × Json)) :
    WebhookEvent :=
  let ev := match getString headers "webhook_id" with
    | some v => if v = "" then ev else { ev with webhookID := v }
    | none => ev
  let ev := match getString headers "webhook_type" with
    | some v => if v = "" then ev else { ev with webhookType := v }
    | none => ev
  let ev := match getString headers "client_id" with
    | some v => if v = "" then ev else { ev with clientID := v }
    | none => ev
  ev

/-- The event the worker starts from: pending status and the receive time,
as set before `json.Unmarshal`. -/
def workerBaseEvent (now : ℕ) : WebhookEvent :=
  { status := "pending", receivedAt := now }

/-- Decode of one delivery: unmarshal of the body into the base event. -/
def decodeDelivery (msg : Delivery) (now : ℕ) : Option WebhookEvent :=
  msg.body.bind (fun j => unmarshalEvent j (workerBaseEvent now))

/-- One iteration of the consumer loop in `Worker.Start`, with
`processEvent` (insert then update-to-processed) and `handleError`
(increment retry count; at the budget mark failed and ack, otherwise mark
retrying, sleep and nack with requeue).  `insertOk` models whether the
storage insert succeeds; status updates are modelled as succeeding. -/
def workerCycle (maxRetries : ℕ) (insertOk : Bool) (msg : Delivery) (now : ℕ) :
    CycleResult :=
  match decodeDelivery msg now with
  | none => { ackAction := AckAction.nackDrop, writes := [] }
  | some ev0 =>
    let ev := applyHeaderMeta ev0 msg.headers
    if insertOk then
      { ackAction := AckAction.ack,
        writes := [StorageWrite.insertDoc (insertEventDoc ev),
          StorageWrite.updateStatus ev.webhookID "processed" ev.retryCount] }
    else
      let ev2 := { ev with retryCount := ev.retryCount + 1 }
      if maxRetries ≤ ev2.retryCount then
        { ackAction := AckAction.ack,
          writes := [StorageWrite.updateStatus ev2.webhookID "failed" ev2.retryCount] }
      else
        { ackAction := AckAction.nackRequeue,
          writes := [StorageWrite.updateStatus ev2.webhookID "retrying" ev2.retryCount] }

/-- A nacked-with-requeue message is redelivered by the broker with the
same headers and body.  `workerTrace` is the sequence of cycle results
over up to `fuel` redeliveries of one message. -/
def workerTrace (maxRetries : ℕ) (insertOk : Bool) (msg : Delivery) (now : ℕ) :
    ℕ → List CycleResult
  | 0 => []
  | fuel + 1 =>
    let r := workerCycle maxRetries insertOk msg now
    r :: (if r.ackAction = AckAction.nackRequeue then
      workerTrace maxRetries insertOk msg now fuel else [])

/-! ## Worker backoff (worker.calculateBackoff) -/

/-- `NewWorker` base delay, 10 seconds, in nanoseconds (the unit of
`time.Duration`). -/
def baseDelayNanos : ℚ := 10000000000

/-- `Worker.calculateBackoff(retryCount)`:
`float64(baseDelay) * math.Pow(2, retryCount-1)` scaled by the jitter
`rand.Float64()*0.5 + 0.5`.  The random draw `r` in `[0,1)` is a
parameter; the final `time.Duration` cast (truncation to a whole
nanosecond) is not modelled. -/
def calculateBackoff (retryCount : ℕ) (r : ℚ) : ℚ :=
  let backoff := baseDelayNanos * (2 : ℚ) ^ ((retryCount : ℤ) - 1)
  let jitter := r * (1/2) + 1/2
  backoff * jitter

/-- The expected sleep before retry `n`: the backoff scaled by the mean
3/4 of the uniform jitter on [1/2, 1). -/
def expectedBackoff (n : ℕ) : ℚ :=
  baseDelayNanos * (2 : ℚ) ^ ((n : ℤ) - 1) * (3/4)

/-! ## Claim-level predicates and concrete inputs -/

/-- The validation-probe premise of the spec, amended on the body clause:
the single `test` field must hold a non-null value (the code tests
`requestBody["test"] != nil`). -/
def validationProbe (req : HttpRequest) : Prop :=
  getHeader req "Webhook-Id" = "WebhookID" ∨
  getHeader req "User-Agent" = "MailerCloud" ∨
  (∃ fields, req.body = some (Json.obj fields) ∧
    (fields = [] ∨ ∃ v, fields = [("test", v)] ∧ v ≠ Json.null))

/-- The free-plan invariant of every reachable limiter: the plan limits of
`NewRateLimiter`, and no entry ever has a webhook registration counted or
the premium flag set (no operation of the package writes either field). -/
def limiterInv (rl : RateLimiter) : Prop :=
  rl.freePlanDailyLimit = 10000 ∧ rl.freePlanWebhookLimit = 20 ∧
  ∀ p ∈ rl.limits, p.2.webhookCount = 0 ∧ p.2.isPremium = false

/-- A router configuration with no API keys registered. -/
def cfgNoKeys : RouterConfig := { apiKeyHeader := "X-API-Key", apiKeys := [] }

/-- A request whose JSON body is `{"test": null}` with no MailerCloud
headers and no API key. -/
def reqTestNull : HttpRequest :=
  { headers := [("Content-Type", "application/json")],
    body := some (Json.obj [("test", Json.null)]) }

/-- A request with an empty JSON object body, `{}`. -/
def reqEmptyBody : HttpRequest :=
  { headers := [("Content-Type", "application/json")],
    body := some (Json.obj []) }

/-- A router configuration with one tenant `t1` owning API key `k1`. -/
def cfgT1 : RouterConfig := { apiKeyHeader := "X-API-Key", apiKeys := [("t1", "k1")] }

/-- Registry binding of webhook id `abc123` to tenant `t1`. -/
def mapperT1 : List (String × String) := [("abc123", "t1")]

/-- The scenario-3 body
`{"event":"delivered","email":"a@b","campaign_id":"c","ts":1700000000}`. -/
def bodyDelivered : Json :=
  Json.obj [("event", Json.str "delivered"), ("email", Json.str "a@b"),
    ("campaign_id", Json.str "c"), ("ts", Json.num (mkRat 1700000000 1))]

/-- The scenario-3 request: `Webhook-Id: abc123`, real event body. -/
def reqDelivered : HttpRequest :=
  { headers := [("Webhook-Id", "abc123"), ("Content-Type", "application/json")],
    body := some bodyDelivered }

/-- A body with `campaign_id = "c"` and the fractional timestamp 1.5,
separating flooring from %.0f rounding. -/
def dataTsHalf : List (String × Json) :=
  [("campaign_id", Json.str "c"), ("ts", Json.num (mkRat 3 2))]

/-- An event whose every field is the Go zero value. -/
def emptyEventRecord : WebhookEvent := {}

/-- A delivery with a well-formed body (`webhook_id` "w1", `event`
"delivered") and the `client_id` header `t1`; used with a storage whose
insert fails on every attempt. -/
def msgFailing : Delivery :=
  { headers := [("client_id", Json.str "t1")],
    body := some (Json.obj [("webhook_id", Json.str "w1"),
      ("event", Json.str "delivered")]) }

/-- A delivery whose body bytes are not parseable as JSON. -/
def msgMalformed : Delivery := { headers := [], body := none }

/-! # Theorems -/

/-- C9: a delivery whose body is not parseable into a `WebhookEvent` is
nacked without requeue (`msg.Nack(false, false)`), and no storage write is
performed for it. -/
theorem C9_malformed_delivery_nacked_no_requeue
    (maxRetries : ℕ) (insertOk : Bool) (msg : Delivery) (now : ℕ)
    (h : decodeDelivery msg now = none) :
    (workerCycle maxRetries insertOk msg now).ackAction = AckAction.nackDrop ∧
    (workerCycle maxRetries insertOk msg now).writes = [] := by
  unfold workerCycle
  rw [h]
  exact ⟨rfl, rfl⟩

/-- Witness for C9: the concrete unparseable delivery is dropped without
requeue or storage writes. -/
theorem C9_witness :
    decodeDelivery msgMalformed 0 = none ∧
    (workerCycle 3 true msgMalformed 0).ackAction = AckAction.nackDrop ∧
    (workerCycle 3 true msgMalformed 0).writes = [] :=
  ⟨rfl, C9_malformed_delivery_nacked_no_requeue 3 true msgMalformed 0 rfl⟩

/-- C3 (code evaluation at the failing input): for a delivery whose
storage insert fails on every attempt, every redelivery cycle is
identical — the decoded retry count restarts at zero because
`retry_count` carries the JSON tag "-" and the requeued message body is
unchanged, so `handleError` increments it to 1, writes `retrying`/1 and
nacks with requeue, for every one of the `fuel` redeliveries.  The
delivery is never acked and no `failed`/3 record is ever written,
contradicting the claimed bounded retry budget. -/
theorem C3_retry_budget_never_exhausts (now fuel : ℕ) :
    workerTrace 3 false msgFailing now fuel =
      List.replicate fuel
        { ackAction := AckAction.nackRequeue,
          writes := [StorageWrite.updateStatus "w1" "retrying" 1] } := by
  induction fuel with
  | zero => rfl
  | succ k ih =>
    rw [workerTrace]
    have hc : workerCycle 3 false msgFailing now =
        { ackAction := AckAction.nackRequeue,
          writes := [StorageWrite.updateStatus "w1" "retrying" 1] } := rfl
    rw [hc]
    simp [ih, List.replicate_succ]

/-- Helper: storing an entry makes it the one found for that client. -/
theorem find_setLimit_self (l : List (String × ClientLimit)) (c : String)
    (e : ClientLimit) :
    (setLimit l c e).find? (fun p => p.1 = c) = some (c, e) := by
  induction l with
  | nil => simp [setLimit]
  | cons hd tl ih =>
    obtain ⟨c1, l1⟩ := hd
    by_cases hc : c1 = c
    · simp [setLimit, hc]
    · simp [setLimit, hc, ih]

/-- Helper: an entry of the map after a store was already there or is the
stored pair. -/
theorem mem_setLimit {l : List (String × ClientLimit)} {c : String}
    {e : ClientLimit} {p : String × ClientLimit} (h : p ∈ setLimit l c e) :
    p ∈ l ∨ p = (c, e) := by
  induction l with
  | nil => simpa [setLimit] using h
  | cons hd tl ih =>
    obtain ⟨c1, l1⟩ := hd
    by_cases hc : c1 = c
    · simp only [setLimit, if_pos hc, List.mem_cons] at h
      rcases h with h | h
      · right; exact h
      · left; exact List.mem_cons_of_mem _ h
    · simp only [setLimit, if_neg hc, List.mem_cons] at h
      rcases h with h | h
      · left; simp [h]
      · rcases ih h with h2 | h2
        · left; exact List.mem_cons_of_mem _ h2
        · right; exact h2

/-- Helper: a successful lookup comes from an entry of the map. -/
theorem lookupLimit_mem {rl : RateLimiter} {c : String} {e : ClientLimit}
    (h : lookupLimit rl c = some e) : ∃ p ∈ rl.limits, p.2 = e := by
  unfold lookupLimit at h
  cases hf : rl.limits.find? (fun p => p.1 = c) with
  | none => rw [hf] at h; exact Option.noConfusion h
  | some p0 =>
    rw [hf] at h
    exact ⟨p0, List.mem_of_find?_eq_some hf, by injection h⟩

/-- Helper: one `AllowRequest` call replaces the client's entry with the
rolled entry, incremented when the call accepts, and touches nothing
else. -/
theorem allowRequest_snd (rl : RateLimiter) (c : String) (now : ℕ) :
    (allowRequest rl c now).2 =
      { rl with limits := setLimit rl.limits c (rolledLimit rl c now) } ∨
    (allowRequest rl c now).2 =
      { rl with limits := setLimit rl.limits c (bumpedLimit (rolledLimit rl c now)) } := by
  unfold allowRequest rolledLimit bumpedLimit
  dsimp only
  split_ifs
  all_goals first | exact Or.inl rfl | exact Or.inr rfl

/-- Helper: the rolled entry keeps the webhook count and the premium flag
of the stored entry (zero and false for a fresh one). -/
theorem rolledLimit_flags (rl : RateLimiter) (c : String) (now : ℕ) :
    (rolledLimit rl c now).webhookCount =
      ((lookupLimit rl c).getD
        { dailyCount := 0, lastReset := now, webhookCount := 0,
          isPremium := false }).webhookCount ∧
    (rolledLimit rl c now).isPremium =
      ((lookupLimit rl c).getD
        { dailyCount := 0, lastReset := now, webhookCount := 0,
          isPremium := false }).isPremium := by
  unfold rolledLimit
  dsimp only
  split_ifs <;> exact ⟨rfl, rfl⟩

/-- Helper: `limiterInv` holds initially. -/
theorem limiterInv_init : limiterInv newRateLimiter := by
  refine ⟨rfl, rfl, ?_⟩
  intro p hp
  simp [newRateLimiter] at hp

/-- Helper: `limiterInv` is preserved by `AllowRequest`. -/
theorem limiterInv_step (rl : RateLimiter) (c : String) (t : ℕ)
    (h : limiterInv rl) : limiterInv (allowRequest rl c t).2 := by
  obtain ⟨h1, h2, h3⟩ := h
  have hflags : (rolledLimit rl c t).webhookCount = 0 ∧
      (rolledLimit rl c t).isPremium = false := by
    obtain ⟨hw, hp⟩ := rolledLimit_flags rl c t
    cases hl : lookupLimit rl c with
    | none => rw [hl] at hw hp; exact ⟨hw, hp⟩
    | some e =>
      obtain ⟨p0, hp0, hpe⟩ := lookupLimit_mem hl
      obtain ⟨hw0, hp0f⟩ := h3 p0 hp0
      rw [hl] at hw hp
      simp only [Option.getD_some] at hw hp
      rw [hw, hp, ← hpe]
      exact ⟨hw0, hp0f⟩
  have key : ∀ e2 : ClientLimit,
      e2.webhookCount = 0 → e2.isPremium = false →
      limiterInv { rl with limits := setLimit rl.limits c e2 } := by
    intro e2 hw hp
    refine ⟨h1, h2, ?_⟩
    intro p hpmem
    rcases mem_setLimit hpmem with hmem | hpe
    · exact h3 p hmem
    · rw [hpe]; exact ⟨hw, hp⟩
  rcases allowRequest_snd rl c t with heq | heq <;> rw [heq]
  · exact key _ hflags.1 hflags.2
  · exact key _ hflags.1 hflags.2

/-- Helper: every reachable limiter state satisfies `limiterInv`. -/
theorem reachable_limiterInv {rl : RateLimiter} (h : Reachable rl) :
    limiterInv rl := by
  induction h with
  | init => exact limiterInv_init
  | step rl c t _ ih => exact limiterInv_step rl c t ih

/-- Helper: the daily count after the roll is the rolled entry's count. -/
theorem dailyCountAfterRoll_eq (rl : RateLimiter) (c : String) (now : ℕ) :
    dailyCountAfterRoll rl c now = (rolledLimit rl c now).dailyCount := by
  unfold dailyCountAfterRoll rolledLimit
  cases hl : lookupLimit rl c with
  | none => simp [Nat.sub_self]
  | some e =>
    dsimp only [Option.getD_some]
    split_ifs <;> rfl

/-- Helper: under the invariant, a call rejects exactly at the daily cap. -/
theorem allowRequest_false_iff (rl : RateLimiter) (c : String) (now : ℕ)
    (h : limiterInv rl) :
    (allowRequest rl c now).1 = false ↔
      10000 ≤ dailyCountAfterRoll rl c now := by
  obtain ⟨h1, h2, h3⟩ := h
  have hflags : (rolledLimit rl c now).webhookCount = 0 ∧
      (rolledLimit rl c now).isPremium = false := by
    obtain ⟨hw, hp⟩ := rolledLimit_flags rl c now
    cases hl : lookupLimit rl c with
    | none => rw [hl] at hw hp; exact ⟨hw, hp⟩
    | some e =>
      obtain ⟨p0, hp0, hpe⟩ := lookupLimit_mem hl
      obtain ⟨hw0, hp0f⟩ := h3 p0 hp0
      rw [hl] at hw hp
      simp only [Option.getD_some] at hw hp
      rw [hw, hp, ← hpe]
      exact ⟨hw0, hp0f⟩
  rw [dailyCountAfterRoll_eq]
  show (allowRequest rl c now).1 = false ↔ 10000 ≤ (rolledLimit rl c now).dailyCount
  unfold allowRequest
  dsimp only
  rw [show (if 86400 ≤ now - ((lookupLimit rl c).getD
      { dailyCount := 0, lastReset := now, webhookCount := 0,
        isPremium := false }).lastReset then
      { (lookupLimit rl c).getD
          { dailyCount := 0, lastReset := now, webhookCount := 0,
            isPremium := false } with dailyCount := 0, lastReset := now }
      else (lookupLimit rl c).getD
        { dailyCount := 0, lastReset := now, webhookCount := 0,
          isPremium := false }) = rolledLimit rl c now from rfl]
  rw [hflags.2, h1, h2, hflags.1]
  simp only [Bool.false_eq_true, if_false]
  rw [if_neg (by omega)]
  split_ifs with hcap
  · simp [hcap]
  · simp [hcap]

/-- C10: the package never increments a client's webhook count nor sets
its premium flag, so in every reachable limiter state every entry has
`webhookCount = 0` and `isPremium = false` — the registration-cap and
premium branches of `AllowRequest` never fire — and a call returns false
exactly when the (window-rolled) daily count has reached 10000. -/
theorem C10_rate_limiter_premium_branches_dead (rl : RateLimiter) (c : String)
    (t : ℕ) (h : Reachable rl) :
    (∀ p ∈ rl.limits, p.2.webhookCount = 0 ∧ p.2.isPremium = false) ∧
    ((allowRequest rl c t).1 = false ↔ 10000 ≤ dailyCountAfterRoll rl c t) := by
  have hinv := reachable_limiterInv h
  exact ⟨hinv.2.2, allowRequest_false_iff rl c t hinv⟩

/-- Witness for C10 at the initial state. -/
theorem C10_witness :
    (∀ p ∈ newRateLimiter.limits, p.2.webhookCount = 0 ∧ p.2.isPremium = false) ∧
    ((allowRequest newRateLimiter "c" 0).1 = false ↔
      10000 ≤ dailyCountAfterRoll newRateLimiter "c" 0) :=
  C10_rate_limiter_premium_branches_dead newRateLimiter "c" 0 Reachable.init

/-- Counterexample for C5 as stated: a tenant's first event at
`t = 3600` (one hour past UTC midnight) anchors the window at 3600 —
the instant of the event — not at `utcMidnight 3600 = 0` as the claim
requires. -/
theorem C5_counterexample :
    lookupLimit (allowRequest newRateLimiter "t1" 3600).2 "t1" =
      some ⟨1, 3600, 0, false⟩ ∧
    utcMidnight 3600 = 0 ∧ (3600 : ℕ) ≠ utcMidnight 3600 := by decide

/-- C5 amended: the window created on a tenant's first event is anchored
to the time of that first event itself (`time.Now().UTC()`), and the
window is reset — counter restarted, re-anchored to now — exactly when at
least 24h elapsed since the anchor; otherwise the anchor and the
accumulated count are kept. -/
theorem C5_window_anchored_at_first_event (rl : RateLimiter) (c : String)
    (t : ℕ) :
    (lookupLimit rl c = none →
      ∃ e2, lookupLimit (allowRequest rl c t).2 c = some e2 ∧
        e2.lastReset = t) ∧
    (∀ e, lookupLimit rl c = some e →
      (86400 ≤ t - e.lastReset →
        ∃ e2, lookupLimit (allowRequest rl c t).2 c = some e2 ∧
          e2.lastReset = t ∧ e2.dailyCount ≤ 1) ∧
      (¬ 86400 ≤ t - e.lastReset →
        ∃ e2, lookupLimit (allowRequest rl c t).2 c = some e2 ∧
          e2.lastReset = e.lastReset ∧ e.dailyCount ≤ e2.dailyCount)) := by
  have hlk : lookupLimit (allowRequest rl c t).2 c = some (rolledLimit rl c t) ∨
      lookupLimit (allowRequest rl c t).2 c =
        some (bumpedLimit (rolledLimit rl c t)) := by
    rcases allowRequest_snd rl c t with heq | heq <;> rw [heq] <;>
      [left; right] <;>
      (unfold lookupLimit; dsimp only; rw [find_setLimit_self]; rfl)
  constructor
  · intro hl
    have hroll : rolledLimit rl c t =
        { dailyCount := 0, lastReset := t, webhookCount := 0,
          isPremium := false } := by
      unfold rolledLimit
      rw [hl]
      simp [Nat.sub_self]
    rcases hlk with hlk | hlk
    · exact ⟨_, hlk, by rw [hroll]⟩
    · exact ⟨_, hlk, by rw [hroll]; rfl⟩
  · intro e hl
    constructor
    · intro hr
      have hroll : rolledLimit rl c t =
          { e with dailyCount := 0, lastReset := t } := by
        unfold rolledLimit
        rw [hl]
        simp [hr]
      rcases hlk with hlk | hlk
      · exact ⟨_, hlk, by rw [hroll], by rw [hroll]; exact Nat.zero_le _⟩
      · exact ⟨_, hlk, by rw [hroll]; rfl, by rw [hroll]; exact le_refl 1⟩
    · intro hr
      have hroll : rolledLimit rl c t = e := by
        unfold rolledLimit
        rw [hl]
        simp [hr]
      rcases hlk with hlk | hlk
      · exact ⟨_, hlk, by rw [hroll], by rw [hroll]⟩
      · exact ⟨_, hlk, by rw [hroll]; rfl, by rw [hroll]; exact Nat.le_succ _⟩

/-- Witness for C5 (amended): first event of a fresh tenant at `t = 3600`
anchors at 3600. -/
theorem C5_witness :
    lookupLimit newRateLimiter "t1" = none ∧
    (∃ e2, lookupLimit (allowRequest newRateLimiter "t1" 3600).2 "t1" =
      some e2 ∧ e2.lastReset = 3600) :=
  ⟨rfl, (C5_window_anchored_at_first_event newRateLimiter "t1" 3600).1 rfl⟩

/-- Helper: one accepted call on a fresh limiter. -/
theorem allowRequest_fresh (c : String) (t : ℕ) :
    allowRequest newRateLimiter c t =
      (true, ⟨[(c, ⟨1, t, 0, false⟩)], 10000, 20, 50⟩) := by
  unfold allowRequest
  simp [newRateLimiter, lookupLimit, setLimit, Nat.sub_self]

/-- Helper: one call on a singleton free entry anchored at `t`, within the
window (`now - t < 24h`): rejected with the state kept at the cap,
accepted and counted below it. -/
theorem allowRequest_state_step (c : String) (t now d : ℕ)
    (h : now - t < 86400) :
    allowRequest ⟨[(c, ⟨d, t, 0, false⟩)], 10000, 20, 50⟩ c now =
      ((if 10000 ≤ d then false else true),
        ⟨[(c, ⟨if 10000 ≤ d then d else d + 1, t, 0, false⟩)],
          10000, 20, 50⟩) := by
  unfold allowRequest
  simp only [lookupLimit, List.find?, setLimit]
  simp [Nat.not_le.mpr h]
  split_ifs with hcap <;> simp [hcap]

/-- Helper: one call on a singleton free entry whose window has expired:
the counter is reset to zero, the call accepted and counted. -/
theorem allowRequest_roll_step (c : String) (t now d : ℕ)
    (h : 86400 ≤ now - t) :
    allowRequest ⟨[(c, ⟨d, t, 0, false⟩)], 10000, 20, 50⟩ c now =
      (true, ⟨[(c, ⟨1, now, 0, false⟩)], 10000, 20, 50⟩) := by
  unfold allowRequest
  simp only [lookupLimit, List.find?, setLimit]
  simp [h]

/-- Helper: the limiter state after `n + 1` same-instant calls of one
client on a fresh limiter: the daily count saturates at 10000. -/
theorem allowIter_state (c : String) (t : ℕ) (n : ℕ) :
    allowIter c t (n + 1) =
      ⟨[(c, ⟨min (n + 1) 10000, t, 0, false⟩)], 10000, 20, 50⟩ := by
  induction n with
  | zero =>
    show (allowRequest (allowIter c t 0) c t).2 = _
    rw [show allowIter c t 0 = newRateLimiter from rfl, allowRequest_fresh]
    norm_num
  | succ k ih =>
    show (allowRequest (allowIter c t (k + 1)) c t).2 = _
    rw [ih, allowRequest_state_step c t t _ (by omega)]
    rcases le_or_lt 10000 (k + 1) with hk | hk
    · rw [min_eq_right hk]
      simp only [le_refl, if_pos]
      have : min (k + 1 + 1) 10000 = 10000 := by omega
      rw [this]
    · rw [min_eq_left (by omega)]
      have hn : ¬ 10000 ≤ k + 1 := by omega
      have hmin : min (k + 1 + 1) 10000 = k + 1 + 1 := by omega
      simp only [hn, if_neg, if_false, hmin]

/-- C4: on the default tier, 10000 same-window events of a tenant are all
accepted; the 10001st call returns false (429); and once at least 24h
have elapsed since the anchor the next call is accepted again with the
daily counter restarted at 1 and the window re-anchored. -/
theorem C4_daily_cap_and_window_roll (c : String) (t t2 : ℕ)
    (hwindow : t + 86400 ≤ t2) :
    (∀ n : ℕ, n < 10000 → (allowRequest (allowIter c t n) c t).1 = true) ∧
    (allowRequest (allowIter c t 10000) c t).1 = false ∧
    (allowRequest ((allowRequest (allowIter c t 10000) c t).2) c t2).1 = true ∧
    lookupLimit
      (allowRequest ((allowRequest (allowIter c t 10000) c t).2) c t2).2 c =
      some ⟨1, t2, 0, false⟩ := by
  have h10 : allowIter c t 10000 = ⟨[(c, ⟨10000, t, 0, false⟩)], 10000, 20, 50⟩ := by
    have h := allowIter_state c t 9999
    simpa using h
  have hreject : allowRequest (allowIter c t 10000) c t =
      (false, ⟨[(c, ⟨10000, t, 0, false⟩)], 10000, 20, 50⟩) := by
    rw [h10, allowRequest_state_step c t t _ (by omega)]
    simp
  refine ⟨?_, ?_, ?_, ?_⟩
  · intro n hn
    cases n with
    | zero =>
      rw [show allowIter c t 0 = newRateLimiter from rfl, allowRequest_fresh]
    | succ m =>
      rw [allowIter_state c t m, allowRequest_state_step c t t _ (by omega)]
      have : ¬ 10000 ≤ min (m + 1) 10000 := by omega
      rw [if_neg this]
  · rw [hreject]
  · rw [hreject]
    show (allowRequest ⟨[(c, ⟨10000, t, 0, false⟩)], 10000, 20, 50⟩ c t2).1 = true
    rw [allowRequest_roll_step c t t2 _ (by omega)]
  · rw [hreject]
    show lookupLimit
      (allowRequest ⟨[(c, ⟨10000, t, 0, false⟩)], 10000, 20, 50⟩ c t2).2 c = _
    rw [allowRequest_roll_step c t t2 _ (by omega)]
    simp [lookupLimit]

/-- Witness for C4 at tenant "t2", first window at `t = 0`, rolled window
at `t2 = 86400`. -/
theorem C4_witness :
    0 + 86400 ≤ 86400 ∧
    ((∀ n : ℕ, n < 10000 →
        (allowRequest (allowIter "t2" 0 n) "t2" 0).1 = true) ∧
     (allowRequest (allowIter "t2" 0 10000) "t2" 0).1 = false ∧
     (allowRequest ((allowRequest (allowIter "t2" 0 10000) "t2" 0).2)
        "t2" 86400).1 = true ∧
     lookupLimit
       (allowRequest ((allowRequest (allowIter "t2" 0 10000) "t2" 0).2)
         "t2" 86400).2 "t2" = some ⟨1, 86400, 0, false⟩) :=
  ⟨le_refl 86400, C4_daily_cap_and_window_roll "t2" 0 86400 (le_refl 86400)⟩

/-- C2 (code evaluation at the failing input): the scenario-3 request —
`Webhook-Id: abc123` bound to tenant `t1`, a well-formed event body —
reaches the vendor-webhook branch, but the router probe check has already
consumed the request body, so the handler's own bind fails and the
request is answered 400 with nothing published and no rate-limit charge. -/
theorem C2_router_consumes_body (now nowNanos : ℕ) :
    (routerPost cfgT1 mapperT1 newRateLimiter reqDelivered now nowNanos).response =
      respErr 400 "Invalid JSON payload" ∧
    (routerPost cfgT1 mapperT1 newRateLimiter reqDelivered now nowNanos).published = [] ∧
    (routerPost cfgT1 mapperT1 newRateLimiter reqDelivered now nowNanos).limiter =
      newRateLimiter :=
  ⟨rfl, rfl, rfl⟩

/-- What the spec intended for the same request: applied to the
unconsumed body, the handler attributes the event to tenant `t1`, makes
exactly one publish, and the event keeps the body's `event` field with a
deterministic composite id carrying the `mc_` marker. -/
theorem handler_on_unconsumed_body_matches_claim :
    (handleWebhook mapperT1 newRateLimiter reqDelivered (some bodyDelivered)
        0 0).response.status = 200 ∧
    (handleWebhook mapperT1 newRateLimiter reqDelivered (some bodyDelivered)
        0 0).published.length = 1 ∧
    ((handleWebhook mapperT1 newRateLimiter reqDelivered (some bodyDelivered)
        0 0).published.map (fun e => e.clientID)) = ["t1"] ∧
    ((handleWebhook mapperT1 newRateLimiter reqDelivered (some bodyDelivered)
        0 0).published.map (fun e => e.event)) = ["delivered"] ∧
    ((handleWebhook mapperT1 newRateLimiter reqDelivered (some bodyDelivered)
        0 0).published.map (fun e => e.webhookID.take 3)) = ["mc_"] := by
  refine ⟨rfl, rfl, rfl, rfl, ?_⟩
  decide

/-- Counterexample for C1 as stated: the body `\x7b"test": null\x7d`
contains exactly one field named `test`, yet the router does not treat the
request as a validation probe — the code requires
`requestBody["test"] != nil` — and answers 401 instead of the claimed 200
with `success:true`. -/
theorem C1_counterexample :
    reqTestNull.body = some (Json.obj [("test", Json.null)]) ∧
    (routerPost cfgNoKeys [] newRateLimiter reqTestNull 0 0).response =
      respErr 401 "Missing API key" ∧
    (routerPost cfgNoKeys [] newRateLimiter reqTestNull 0 0).response.status ≠ 200 ∧
    (routerPost cfgNoKeys [] newRateLimiter reqTestNull 0 0).response.success ≠
      some true := by
  refine ⟨rfl, rfl, ?_, ?_⟩ <;> decide

/-- C1 amended: for every POST /webhook whose Webhook-Id header is the
literal "WebhookID", or whose User-Agent is "MailerCloud", or whose body
is an empty JSON object or one with exactly one field named `test`
holding a non-null value, the router answers 200 validation-success,
publishes nothing and leaves the rate limiter untouched. -/
theorem C1_validation_probe_short_circuits (cfg : RouterConfig)
    (mapper : List (String × String)) (rl : RateLimiter) (req : HttpRequest)
    (now nowNanos : ℕ) (h : validationProbe req) :
    (routerPost cfg mapper rl req now nowNanos).response = respValidationOk ∧
    (routerPost cfg mapper rl req now nowNanos).published = [] ∧
    (routerPost cfg mapper rl req now nowNanos).limiter = rl := by
  have hval : isMailerCloudValidation req = true := by
    unfold validationProbe at h
    unfold isMailerCloudValidation
    rcases h with h | h | hbody
    · simp [h]
    · simp [h]
    · obtain ⟨fields, hb, hf⟩ := hbody
      rw [hb]
      rcases hf with hf | hf
      · subst hf
        simp [bindObj]
      · obtain ⟨v, hf, hv⟩ := hf
        subst hf
        cases v <;> simp [bindObj, lookupField, isNonNilValue] <;>
          exact absurd rfl hv
  unfold routerPost
  rw [hval]
  exact ⟨rfl, rfl, rfl⟩

/-- Witness for C1 (amended) at the empty-object probe body. -/
theorem C1_witness :
    validationProbe reqEmptyBody ∧
    (routerPost cfgNoKeys [] newRateLimiter reqEmptyBody 5 7).response =
      respValidationOk ∧
    (routerPost cfgNoKeys [] newRateLimiter reqEmptyBody 5 7).published = [] ∧
    (routerPost cfgNoKeys [] newRateLimiter reqEmptyBody 5 7).limiter =
      newRateLimiter :=
  ⟨Or.inr (Or.inr ⟨[], rfl, Or.inl rfl⟩),
    C1_validation_probe_short_circuits cfgNoKeys [] newRateLimiter reqEmptyBody
      5 7 (Or.inr (Or.inr ⟨[], rfl, Or.inl rfl⟩))⟩

/-- Counterexample for C6 as stated: with `campaign_id = "c"` and the
fractional timestamp 1.5, `%.0f` rounds to "2" ("32" in hex) while the
claimed floor gives "1" ("31" in hex), so the produced id differs from
the spec's floor composite. -/
theorem C6_counterexample :
    generateWebhookID dataTsHalf 0 = "mc_[63 32]" ∧
    specCompositeFloor dataTsHalf = "mc_[63 31]" ∧
    generateWebhookID dataTsHalf 0 ≠ specCompositeFloor dataTsHalf := by
  refine ⟨?_, ?_, ?_⟩ <;> decide

/-- Helper: the components slice the code builds coincides with the
spec-side sequence (with rounding in place of flooring). -/
theorem compositeComponents_eq_spec (data : List (String × Json)) :
    compositeComponents data = specComponentsRounded data := by
  unfold compositeComponents specComponentsRounded
  rcases h1 : getString data "campaign_id" with _ | v1 <;>
    rcases h2 : getString data "email" with _ | v2 <;>
      rcases h3 : getNum data "ts" with _ | q <;>
        rcases h4 : getString data "event" with _ | v4 <;>
          simp only [h1, h2, h3, h4, id_eq, List.filterMap_cons,
            List.filterMap_nil, Option.none_bind, Option.some_bind,
            Option.map_none', Option.map_some', List.nil_append,
            List.append_nil] <;>
          (try split_ifs) <;> simp_all

/-- C6 amended: identity assignment.  A non-empty string among
`webhook_id`, `message_id`, `event_id`, `delivery_id`, `tracking_id`
(checked in that order) is used verbatim; otherwise, when the composite
sequence `[campaign_id, email, ts, event]` (empty components omitted,
the timestamp through `%.0f`, i.e. rounded half-to-even — not floored)
is non-empty, the id is its `mc_`-prefixed hex dump; in both cases the id
is deterministic in the body alone. -/
theorem C6_identity_assignment (data : List (String × Json)) (n1 n2 : ℕ) :
    (∀ v, firstIdField data = some v → generateWebhookID data n1 = v) ∧
    (firstIdField data = none → specComponentsRounded data ≠ [] →
      generateWebhookID data n1 = specCompositeRounded data) ∧
    ((firstIdField data ≠ none ∨ specComponentsRounded data ≠ []) →
      generateWebhookID data n1 = generateWebhookID data n2) := by
  refine ⟨?_, ?_, ?_⟩
  · intro v h
    unfold generateWebhookID
    rw [h]
  · intro h hne
    unfold generateWebhookID specCompositeRounded
    rw [h]
    dsimp only
    rw [compositeComponents_eq_spec, if_neg hne]
  · intro h
    rcases hf : firstIdField data with _ | v
    · rcases h with h | h
      · exact absurd hf h
      · unfold generateWebhookID
        rw [hf]
        dsimp only
        rw [compositeComponents_eq_spec, if_neg h, if_neg h]
    · unfold generateWebhookID
      rw [hf]

/-- Witness for C6 (amended) at the fractional-timestamp body. -/
theorem C6_witness :
    firstIdField dataTsHalf = none ∧
    specComponentsRounded dataTsHalf ≠ [] ∧
    generateWebhookID dataTsHalf 5 = specCompositeRounded dataTsHalf :=
  ⟨rfl, by decide,
    (C6_identity_assignment dataTsHalf 5 5).2.1 rfl (by decide)⟩

/-- C7: for every retry `n ≥ 1` and random draw `r ∈ [0,1)`, the backoff
equals `base · 2^(n-1) · j` for a jitter `j ∈ [1/2, 1)`, and the expected
sleep (jitter mean 3/4) is monotone from retry `n-1` to retry `n`. -/
theorem C7_backoff_formula_and_monotone (n : ℕ) (hn : 1 ≤ n) (r : ℚ)
    (hr0 : 0 ≤ r) (hr1 : r < 1) :
    (∃ j : ℚ, calculateBackoff n r =
        baseDelayNanos * (2 : ℚ) ^ ((n : ℤ) - 1) * j ∧ 1/2 ≤ j ∧ j < 1) ∧
    expectedBackoff (n - 1) ≤ expectedBackoff n := by
  constructor
  · exact ⟨r * (1/2) + 1/2, rfl, by linarith, by linarith⟩
  · unfold expectedBackoff
    have hle : ((n - 1 : ℕ) : ℤ) - 1 ≤ (n : ℤ) - 1 := by
      have hc : ((n - 1 : ℕ) : ℤ) ≤ (n : ℤ) := by exact_mod_cast Nat.sub_le n 1
      omega
    have hpow : (2 : ℚ) ^ (((n - 1 : ℕ) : ℤ) - 1) ≤ (2 : ℚ) ^ ((n : ℤ) - 1) :=
      zpow_le_zpow_right₀ (by norm_num) hle
    have hbase : (0 : ℚ) < baseDelayNanos := by norm_num [baseDelayNanos]
    have := mul_le_mul_of_nonneg_left hpow (le_of_lt hbase)
    nlinarith [this]

/-- Witness for C7 at retry 2 with the least random draw. -/
theorem C7_witness :
    ((1 : ℕ) ≤ 2 ∧ (0 : ℚ) ≤ 0 ∧ (0 : ℚ) < 1) ∧
    ((∃ j : ℚ, calculateBackoff 2 0 =
        baseDelayNanos * (2 : ℚ) ^ ((2 : ℤ) - 1) * j ∧ 1/2 ≤ j ∧ j < 1) ∧
      expectedBackoff (2 - 1) ≤ expectedBackoff 2) :=
  ⟨⟨by norm_num, le_refl 0, by norm_num⟩,
    C7_backoff_formula_and_monotone 2 (by norm_num) 0 (le_refl 0) (by norm_num)⟩

/-- Counterexample for C8 as stated: the all-zero event has `event` and
`webhook_id` equal to the empty string, yet both keys are present in the
stored document (the seven base fields are written unconditionally). -/
theorem C8_counterexample :
    emptyEventRecord.event = "" ∧ "event" ∈ docKeys emptyEventRecord ∧
    emptyEventRecord.webhookID = "" ∧ "webhook_id" ∈ docKeys emptyEventRecord := by
  refine ⟨rfl, ?_, rfl, ?_⟩ <;> decide

/-- Helper: key membership over a conditional singleton segment. -/
theorem mem_map_fst_ite (c : Prop) [Decidable c] (kv : String × DocValue)
    (k : String) :
    (k ∈ ((if c then [kv] else []) : List (String × DocValue)).map Prod.fst) ↔
      c ∧ k = kv.1 := by
  split_ifs with h <;> simp [h]

/-- C8 amended: `insert` always writes the seven base fields
(`webhook_id`, `webhook_type`, `client_id`, `event`, `received_at`,
`status`, `retry_count`) even when empty, and writes each optional field
exactly when it has a value: non-empty string, non-empty sequence, or
present unstructured `list_id`. -/
theorem C8_insert_field_presence (e : WebhookEvent) :
    ("webhook_id" ∈ docKeys e ∧ "webhook_type" ∈ docKeys e ∧
     "client_id" ∈ docKeys e ∧ "event" ∈ docKeys e ∧
     "received_at" ∈ docKeys e ∧ "status" ∈ docKeys e ∧
     "retry_count" ∈ docKeys e) ∧
    ("campaign_id" ∈ docKeys e ↔ e.campaignID ≠ "") ∧
    ("campaign_name" ∈ docKeys e ↔ e.campaignName ≠ "") ∧
    ("tag_name" ∈ docKeys e ↔ e.tagName ≠ "") ∧
    ("date_event" ∈ docKeys e ↔ e.dateEvent ≠ "") ∧
    ("url" ∈ docKeys e ↔ e.url ≠ "") ∧
    ("email" ∈ docKeys e ↔ e.email ≠ "") ∧
    ("emails" ∈ docKeys e ↔ e.emails ≠ []) ∧
    ("list_id" ∈ docKeys e ↔ e.listID ≠ none) ∧
    ("reason" ∈ docKeys e ↔ e.reason ≠ "") := by
  cases hlid : e.listID with
  | none =>
    simp [docKeys, insertEventDoc, List.map_append, List.mem_append,
      mem_map_fst_ite, hlid]
  | some v =>
    simp [docKeys, insertEventDoc, List.map_append, List.mem_append,
      mem_map_fst_ite, hlid]

end WebhookProc
